import Mathlib

/-!
Shallow embedding of `examples/esmif.ipynb` from the DisulfideBond repository.

The notebook is embedded as a list of cells, each cell a list of statements
(`Stmt`).  Python comments become `Stmt.comment` values carrying their text.
The external world (the `esm` library loader, `score_complex`,
`sample_complex`) is a parameter `World` of the semantics: those functions
are defined in `models/score_esmif.py` and `models/sample_esmif.py`, which
are not part of the sources at hand, so their interfaces are modelled from
the specification (see the doc comments on `ScoreResult` and `World`).
-/

namespace Esmif

/-- A torch device, as produced by `torch.device("cuda")` / `torch.device("cpu")`. -/
inductive Device where
  | cuda
  | cpu
  deriving DecidableEq, Repr

/-- Embeds line 26 of the notebook:
`device = torch.device("cuda" if torch.cuda.is_available() else "cpu")`.
The argument is the value returned by `torch.cuda.is_available()`. -/
def selectDevice (cudaAvailable : Bool) : Device :=
  if cudaAvailable then Device.cuda else Device.cpu

/-- The pretrained network object returned by
`esm.pretrained.esm_if1_gvp4_t16_142M_UR50()`.  `training` is the torch
module train/eval flag (`.eval()` sets it to `false`), `device` the device
the module was last moved to (`none` before any `.to(...)`), and `params`
an abstract identifier of the weight tensors, so that "parameters
unmodified" is expressible as `params` being unchanged. -/
structure Model where
  training : Bool
  device : Option Device
  params : Nat
  deriving DecidableEq, Repr

/-- `model.eval()`: switches the module to evaluation mode, returning the
same module object. -/
def Model.evalMode (m : Model) : Model :=
  { m with training := false }

/-- `model.to(device)`: moves the module to the given device, returning the
same module object. -/
def Model.toDevice (m : Model) (d : Device) : Model :=
  { m with device := some d }

/-- The alphabet object returned alongside the model by the pretrained
loader; opaque to the notebook, which only passes it along. -/
structure Alphabet where
  name : String
  deriving DecidableEq, Repr

/-- A numeric tensor, abstracted to its shape and entries. -/
structure Tensor where
  shape : List Nat
  entries : List Float
  deriving Repr

/-- Modelled from the spec: `score_complex` (defined in
`models/score_esmif.py`, which is not among the sources) returns "an
entropy tensor, a loss scalar, and a perplexity scalar". -/
structure ScoreResult where
  entropy : Tensor
  loss : Float
  perplexity : Float
  deriving Repr

/-- Errors raised by the external framework (the spec names missing files,
device unavailability and malformed sequences; `nameError` is Python's
`NameError` for an unbound variable; `external` covers anything else). -/
inductive Err where
  | fileNotFound (path : String)
  | deviceUnavailable
  | malformedSequence (seq : String)
  | nameError (name : String)
  | external (message : String)
  deriving DecidableEq, Repr

/-- The statements the notebook is made of, translated cell line by cell
line from `examples/esmif.ipynb`.  Constructors `sampleCall` and
`tryExcept` are part of the statement language (so that their absence from
the notebook is a statement about its content, not about the language),
but no active cell of the notebook uses them. -/
inductive Stmt where
  | pyImport (module : String)
  | pyImportFrom (module : String) (name : String)
  | sysPathAppend (path : String)
  | assignDevice
  | loadPretrained
  | modelEvalTo
  | assignStr (name value : String)
  | assignStrList (name : String) (values : List String)
  | scoreCall (modelArg alphabetArg pathArg seqListArg : String)
  | exprOutput
  | sampleCall (pathArg outputPathArg : String)
  | tryExcept (body handler : List Stmt)
  | comment (text : String)

/-- The literal `target_seq_list` of cell 2 (notebook lines 39-48). -/
def targetSeqList : List String :=
  [ "SGEVQLQESGGGLVQPGGSLRLSCTASGVTISALNAMAMGWYRQAPGERRVMVAAVSERGNAMYRESVQGRFTVTRDFTNKMVSLQMDNLKPEDTAVYYCHVLEDRVDSFHDYWGQGTQVTVSS"
  , "KGQVQLQQSAELALARMSCKASYTFTSQAPGKGLEWVSAITWNELARPGASVKMSGHIDYADSVKGRFSGHIDYADSVKGRFTIPGASVKMSGTEKMSCTAVYYCAKYPGQVQLQQSAELAASS"
  , "ARPGASVNELARPGASVKMSGHIDYAKMSCKASGYTFTSQAPGLEWVSAITWNELKASGYFTSQAPLQMLYLAVYYCAKPYYGSHVWGAVSAITWGVQLYAVAKYSRDNSKNTTVTVGTTVTVS"
  , "PGLRAEDTAVYYCAKYPYELARPGYTFTSQAPGKGLGSHWYFDVWWYFDLYQMNSLRATIRDNSKNTWVSEVWGAGTASKMSCKASGGSVKMEDTAVYYCAKYPYYGSHGAGTDNSKNTVVTVS"
  , "ASVRPGLYLQMNSGQVQLQQSALQQSAELYYGSHWYFDVWGAGTTVHIDYADSVKGRFTISRDNSKNTLYLQMNSLRAEDTDVWGAGTTVTEWVNSLRAEDARPGASVKMSGTDSVKGRFTISS"
  , "SGEVQLQESGGGLVQPGGSLRLSCTASGVTISALNAMAMGWYRQAPGERRVMVAAVSERGNAMYRESVQGRFTVTRDFTNKMVSLQMDNLKPEDTAVYYCHVLEDRVDSFHDYWGQGTQVTVSS"
  , "SGTVQLTESGGGTVAPGGSLTLSAKATGVTISALNAMAWGWYRQRPGERRVAVAAVSERGNAMYREDVRGRWTITRDAANKTVSLEMRDLRPEDTATYYPHVLEDRVDSFHDYWGAGVPVTVVP"
  , "IGPVQLVESGGGKVEPGGSLTLEMEAKGVTISALNAMAMGWYRQRPGERRVMVAAVSERGNAMYREDVRGRFRVTKNQRDRRVSLKMNNLKPEDSATYFAHVLEDRVDSFHDYWGKGSVVSVRP"
  ]

/-- The literal `pdb_path` of cell 2 (notebook line 38). -/
def pdbPath : String := "../pdbs/NbALFA_ALFAtag_AF3.pdb"

/-- Cell 1 of the notebook (lines 8-29): imports, `sys.path.append("..")`,
device selection, pretrained-model loading and `.eval().to(device)`. -/
def cell1 : List Stmt :=
  [ Stmt.pyImport "os"
  , Stmt.pyImport "sys"
  , Stmt.sysPathAppend ".."
  , Stmt.pyImport "esm"
  , Stmt.pyImport "numpy"
  , Stmt.pyImport "pandas"
  , Stmt.pyImport "torch"
  , Stmt.pyImport "torch_geometric"
  , Stmt.pyImport "torch_sparse"
  , Stmt.pyImportFrom "torch_geometric.nn" "MessagePassing"
  , Stmt.pyImportFrom "tqdm.auto" "tqdm"
  , Stmt.pyImportFrom "models.sample_esmif" "sample_complex"
  , Stmt.pyImportFrom "models.score_esmif" "score_complex"
  , Stmt.assignDevice
  , Stmt.loadPretrained
  , Stmt.modelEvalTo
  ]

/-- Cell 2 of the notebook (lines 38-55): `pdb_path`, `target_seq_list`,
the single `score_complex` call, and the trailing output expression
`entropy.shape, loss, perplexity`. -/
def cell2 : List Stmt :=
  [ Stmt.assignStr "pdb_path" pdbPath
  , Stmt.assignStrList "target_seq_list" targetSeqList
  , Stmt.scoreCall "esmif_model" "esmif_alphabet" "pdb_path" "target_seq_list"
  , Stmt.exprOutput
  ]

/-- Cell 3 of the notebook (lines 64-81): the sampling loop, every line of
which is commented out in the source. -/
def cell3 : List Stmt :=
  [ Stmt.comment "# pdb_path = \"../pdbs/NbALFA_AF3.pdb\""
  , Stmt.comment "# output_path = \"../results/sampled_monomer_esm.fasta\""
  , Stmt.comment "# redisigned_residues = \"1 3 4 5 7 8 9 13 14 15 19 20 21 23 24 25 26 27 39 41 44 45 46 48 50 52 53 67 68 69 72 73 74 75 76 77 78 79 80 81 82 83 84 85 86 88 89 91 92 93 95 97 99 100 102 114 116 118 119 120 121 123 124\""
  , Stmt.comment "# for batch_num in tqdm(range(2048)):"
  , Stmt.comment "#     sample_complex("
  , Stmt.comment "#         esmif_model,"
  , Stmt.comment "#         esmif_alphabet,"
  , Stmt.comment "#         pdb_path,"
  , Stmt.comment "#         output_path,"
  , Stmt.comment "#         target_chain_id=\"A\","
  , Stmt.comment "#         batch_size=32,"
  , Stmt.comment "#         redesigned_residues=redisigned_residues,"
  , Stmt.comment "#         omit_aa=\"C\","
  , Stmt.comment "#         temperature=1.0,"
  , Stmt.comment "#         padding_length=10,"
  , Stmt.comment "#         index_offset=batch_num * 32,"
  , Stmt.comment "#     )"
  ]

/-- The notebook as its list of cells. -/
def notebook : List (List Stmt) := [cell1, cell2, cell3]

/-- All statements of the notebook in execution order. -/
def allStmts : List Stmt := cell1 ++ cell2 ++ cell3

/-- Modelled from the spec: the external collaborators the notebook calls
into, none of which is defined in the sources at hand.  `loadPretrained`
is `esm.pretrained.esm_if1_gvp4_t16_142M_UR50()` (it downloads the
weights, and may fail); `score` is `score_complex` from
`models/score_esmif.py` ("forward them through a frozen pretrained
geometric neural network": a function of the model, alphabet, structure
path and sequence list that either fails or returns a `ScoreResult`,
mutating nothing); `sample` is `sample_complex` from
`models/sample_esmif.py`; `cudaAvailable` is `torch.cuda.is_available()`. -/
structure World where
  cudaAvailable : Bool
  loadPretrained : Except Err (Model × Alphabet)
  score : Model → Alphabet → String → List String → Except Err ScoreResult
  sample : Model → Alphabet → String → String → Except Err Unit

/-- One external call made during execution, recorded in the trace. -/
inductive Call where
  | load
  | score (path : String) (seqs : List String)
  | sample (path outputPath : String)
  deriving DecidableEq, Repr

/-- Whether a recorded call is a `sample_complex` invocation. -/
def Call.isSample : Call → Bool
  | Call.sample _ _ => true
  | _ => false

/-- The interpreter state: the notebook's bindings plus the interpreter's
`sys.path` (the entries appended by this process; process-wide state). -/
structure NbState where
  sysPath : List String
  deviceVar : Option Device
  model : Option Model
  alphabet : Option Alphabet
  strVars : List (String × String)
  strListVars : List (String × List String)
  lastScore : Option ScoreResult
  finalOutput : Option (List Nat × Float × Float)

/-- The state before the first cell runs: nothing bound. -/
def initState : NbState :=
  { sysPath := [], deviceVar := none, model := none, alphabet := none
  , strVars := [], strListVars := [], lastScore := none, finalOutput := none }

/-- Look up a string variable (later assignments shadow earlier ones). -/
def lookupStr : List (String × String) → String → Option String
  | [], _ => none
  | (n, v) :: rest, k => if n == k then some v else lookupStr rest k

/-- Look up a string-list variable. -/
def lookupStrList : List (String × List String) → String → Option (List String)
  | [], _ => none
  | (n, v) :: rest, k => if n == k then some v else lookupStrList rest k

mutual

/-- Execute one statement: the next state (or the error that propagates)
together with the external calls made.  Comments do nothing.  A
`tryExcept` would catch the body's error and run the handler — the
notebook contains no such statement, so every error short-circuits. -/
def stepStmt (w : World) (st : NbState) : Stmt → Except Err NbState × List Call
  | Stmt.pyImport _ => (Except.ok st, [])
  | Stmt.pyImportFrom _ _ => (Except.ok st, [])
  | Stmt.sysPathAppend p => (Except.ok { st with sysPath := st.sysPath ++ [p] }, [])
  | Stmt.assignDevice =>
      (Except.ok { st with deviceVar := some (selectDevice w.cudaAvailable) }, [])
  | Stmt.loadPretrained =>
      match w.loadPretrained with
      | Except.ok (m, a) =>
          (Except.ok { st with model := some m, alphabet := some a }, [Call.load])
      | Except.error e => (Except.error e, [Call.load])
  | Stmt.modelEvalTo =>
      match st.model, st.deviceVar with
      | some m, some d =>
          (Except.ok { st with model := some ((m.evalMode).toDevice d) }, [])
      | _, _ => (Except.error (Err.nameError "esmif_model"), [])
  | Stmt.assignStr n v => (Except.ok { st with strVars := (n, v) :: st.strVars }, [])
  | Stmt.assignStrList n vs =>
      (Except.ok { st with strListVars := (n, vs) :: st.strListVars }, [])
  | Stmt.scoreCall _ _ p l =>
      match st.model, st.alphabet, lookupStr st.strVars p, lookupStrList st.strListVars l with
      | some m, some a, some path, some seqs =>
          match w.score m a path seqs with
          | Except.ok r => (Except.ok { st with lastScore := some r }, [Call.score path seqs])
          | Except.error e => (Except.error e, [Call.score path seqs])
      | _, _, _, _ => (Except.error (Err.nameError "score_complex arguments"), [])
  | Stmt.exprOutput =>
      match st.lastScore with
      | some r =>
          (Except.ok { st with finalOutput := some (r.entropy.shape, r.loss, r.perplexity) }, [])
      | none => (Except.error (Err.nameError "entropy"), [])
  | Stmt.sampleCall p o =>
      match st.model, st.alphabet, lookupStr st.strVars p, lookupStr st.strVars o with
      | some m, some a, some path, some out =>
          match w.sample m a path out with
          | Except.ok _ => (Except.ok st, [Call.sample path out])
          | Except.error e => (Except.error e, [Call.sample path out])
      | _, _, _, _ => (Except.error (Err.nameError "sample_complex arguments"), [])
  | Stmt.tryExcept body handler =>
      match runStmts w st body with
      | (Except.ok st2, t) => (Except.ok st2, t)
      | (Except.error _, t) =>
          match runStmts w st handler with
          | (r, t2) => (r, t ++ t2)
  | Stmt.comment _ => (Except.ok st, [])

/-- Execute a statement list in order; the first error stops execution and
propagates. -/
def runStmts (w : World) (st : NbState) : List Stmt → Except Err NbState × List Call
  | [] => (Except.ok st, [])
  | s :: rest =>
      match stepStmt w st s with
      | (Except.ok st2, t) =>
          match runStmts w st2 rest with
          | (r, t2) => (r, t ++ t2)
      | (Except.error e, t) => (Except.error e, t)

end

/-- Run the whole notebook against an external world. -/
def runNotebook (w : World) : Except Err NbState × List Call :=
  runStmts w initState allStmts

/-- Side effects a statement can have beyond its own local bindings. -/
inductive Effect where
  | globalMutation (target : String)
  | networkDownload (what : String)
  | fileRead
  | fileWrite
  deriving DecidableEq, Repr

/-- Whether an effect mutates process-wide interpreter state. -/
def Effect.isGlobalMutation : Effect → Bool
  | Effect.globalMutation _ => true
  | _ => false

/-- Whether an effect writes a file. -/
def Effect.isFileWrite : Effect → Bool
  | Effect.fileWrite => true
  | _ => false

/-- Whether an effect contacts the network. -/
def Effect.isNetwork : Effect → Bool
  | Effect.networkDownload _ => true
  | _ => false

mutual

/-- The side effects of a statement: `sys.path.append` mutates the
interpreter-wide module search path; the pretrained loader downloads the
weights; `score_complex` reads the structure file; `sample_complex` reads
the structure file and writes the output file.  Comments have none. -/
def Stmt.effects : Stmt → List Effect
  | Stmt.sysPathAppend _ => [Effect.globalMutation "sys.path"]
  | Stmt.loadPretrained => [Effect.networkDownload "esm_if1_gvp4_t16_142M_UR50"]
  | Stmt.scoreCall _ _ _ _ => [Effect.fileRead]
  | Stmt.sampleCall _ _ => [Effect.fileRead, Effect.fileWrite]
  | Stmt.tryExcept body handler => effectsList body ++ effectsList handler
  | _ => []

/-- The side effects of a statement list. -/
def effectsList : List Stmt → List Effect
  | [] => []
  | s :: rest => s.effects ++ effectsList rest

end

/-- Whether a statement is a Python comment. -/
def Stmt.isComment : Stmt → Bool
  | Stmt.comment _ => true
  | _ => false

/-- Whether a statement is a `score_complex` call. -/
def Stmt.isScoreCall : Stmt → Bool
  | Stmt.scoreCall _ _ _ _ => true
  | _ => false

/-- Whether a statement is a `try`/`except` block. -/
def Stmt.isTryExcept : Stmt → Bool
  | Stmt.tryExcept _ _ => true
  | _ => false

mutual

/-- Whether a statement contains an (uncommented) `sample_complex` call,
looking inside `try`/`except` blocks. -/
def Stmt.hasSampleCall : Stmt → Bool
  | Stmt.sampleCall _ _ => true
  | Stmt.tryExcept body handler => hasSampleCallList body || hasSampleCallList handler
  | _ => false

/-- Whether a statement list contains an uncommented `sample_complex` call. -/
def hasSampleCallList : List Stmt → Bool
  | [] => false
  | s :: rest => s.hasSampleCall || hasSampleCallList rest

end

/-- A concrete pretrained model as returned by the loader: torch modules
start in training mode and on no particular device. -/
def mDemo : Model := { training := true, device := none, params := 42 }

/-- A concrete alphabet object. -/
def aDemo : Alphabet := { name := "esm_if1" }

/-- A concrete scoring result: an entropy tensor of shape
sequences x residues, a loss and a perplexity. -/
def demoResult : ScoreResult :=
  { entropy := { shape := [8, 124], entries := [] }, loss := 1.25, perplexity := 3.5 }

/-- A world in which everything succeeds: no GPU, the loader returns
`mDemo`/`aDemo`, and `score_complex` returns `demoResult`. -/
def wOkDemo : World :=
  { cudaAvailable := false
  , loadPretrained := Except.ok (mDemo, aDemo)
  , score := fun _ _ _ _ => Except.ok demoResult
  , sample := fun _ _ _ _ => Except.ok () }

/-- A world in which the weight download fails. -/
def wLoadFail : World :=
  { cudaAvailable := true
  , loadPretrained := Except.error (Err.external "weights download failed")
  , score := fun _ _ _ _ => Except.error (Err.external "weights download failed")
  , sample := fun _ _ _ _ => Except.ok () }

/-- A world in which the structure file is missing, so `score_complex`
raises a file-not-found error. -/
def wScoreFail : World :=
  { cudaAvailable := false
  , loadPretrained := Except.ok (mDemo, aDemo)
  , score := fun _ _ _ _ => Except.error (Err.fileNotFound pdbPath)
  , sample := fun _ _ _ _ => Except.ok () }

/-- The state the notebook ends in when run against `wOkDemo`. -/
def okFinalStateDemo : NbState :=
  { sysPath := [".."]
  , deviceVar := some Device.cpu
  , model := some { training := false, device := some Device.cpu, params := mDemo.params }
  , alphabet := some aDemo
  , strVars := [("pdb_path", pdbPath)]
  , strListVars := [("target_seq_list", targetSeqList)]
  , lastScore := some demoResult
  , finalOutput := some (demoResult.entropy.shape, demoResult.loss, demoResult.perplexity) }

/-- Running the notebook in a world where the loader and the scoring call
both succeed: the run ends in the fully determined state (device selected
by fallback, model in eval mode on that device with its loaded parameters,
the two literal bindings, the score result and the final output tuple),
and the external calls made are exactly the load and the one scoring
call. -/
theorem runNotebook_ok (w : World) (m : Model) (a : Alphabet) (r : ScoreResult)
    (hload : w.loadPretrained = Except.ok (m, a))
    (hscore : w.score ((m.evalMode).toDevice (selectDevice w.cudaAvailable)) a pdbPath
        targetSeqList = Except.ok r) :
    runNotebook w =
      (Except.ok
        { sysPath := [".."]
        , deviceVar := some (selectDevice w.cudaAvailable)
        , model := some ((m.evalMode).toDevice (selectDevice w.cudaAvailable))
        , alphabet := some a
        , strVars := [("pdb_path", pdbPath)]
        , strListVars := [("target_seq_list", targetSeqList)]
        , lastScore := some r
        , finalOutput := some (r.entropy.shape, r.loss, r.perplexity) }
      , [Call.load, Call.score pdbPath targetSeqList]) := by
  simp [runNotebook, allStmts, cell1, cell2, cell3, runStmts, stepStmt, initState,
        lookupStr, lookupStrList, hload, hscore]

/-- If the pretrained loader fails, the run stops there and its error is
the run's result. -/
theorem runNotebook_load_error (w : World) (e : Err)
    (hload : w.loadPretrained = Except.error e) :
    runNotebook w = (Except.error e, [Call.load]) := by
  simp [runNotebook, allStmts, cell1, cell2, cell3, runStmts, stepStmt, initState, hload]

/-- If the scoring call fails, the run stops there and its error is the
run's result. -/
theorem runNotebook_score_error (w : World) (m : Model) (a : Alphabet) (e : Err)
    (hload : w.loadPretrained = Except.ok (m, a))
    (hscore : w.score ((m.evalMode).toDevice (selectDevice w.cudaAvailable)) a pdbPath
        targetSeqList = Except.error e) :
    runNotebook w = (Except.error e, [Call.load, Call.score pdbPath targetSeqList]) := by
  simp [runNotebook, allStmts, cell1, cell2, cell3, runStmts, stepStmt, initState,
        lookupStr, lookupStrList, hload, hscore]

mutual

/-- A statement without a `sample_complex` call never records one in its
trace, in any world and from any state. -/
theorem stepStmt_filter_sample (w : World) (st : NbState) (s : Stmt)
    (h : s.hasSampleCall = false) :
    ((stepStmt w st s).2.filter Call.isSample) = [] := by
  cases s with
  | pyImport m => simp [stepStmt]
  | pyImportFrom m n => simp [stepStmt]
  | sysPathAppend p => simp [stepStmt]
  | assignDevice => simp [stepStmt]
  | loadPretrained =>
      cases hl : w.loadPretrained with
      | ok p => cases p with
        | mk m a => simp [stepStmt, hl, Call.isSample]
      | error e => simp [stepStmt, hl, Call.isSample]
  | modelEvalTo =>
      cases hm : st.model with
      | none => simp [stepStmt, hm]
      | some m =>
        cases hd : st.deviceVar with
        | none => simp [stepStmt, hm, hd]
        | some d => simp [stepStmt, hm, hd]
  | assignStr n v => simp [stepStmt]
  | assignStrList n vs => simp [stepStmt]
  | scoreCall ma aa pa la =>
      simp only [stepStmt]
      split
      · split <;> simp [Call.isSample]
      · simp
  | exprOutput =>
      cases hr : st.lastScore with
      | none => simp [stepStmt, hr]
      | some r => simp [stepStmt, hr]
  | sampleCall p o => simp [Stmt.hasSampleCall] at h
  | tryExcept body handler =>
      simp only [Stmt.hasSampleCall, Bool.or_eq_false_iff] at h
      have ih1 := runStmts_filter_sample w st body h.1
      have ih2 := runStmts_filter_sample w st handler h.2
      simp only [stepStmt]
      split
      · next st2 t heq =>
          rw [heq] at ih1
          simpa using ih1
      · next e t heq =>
          rw [heq] at ih1
          simp only [List.filter_append, List.append_eq_nil]
          exact ⟨ih1, ih2⟩
  | comment t => simp [stepStmt]

/-- A statement list without a `sample_complex` call never records one in
its trace, in any world and from any state. -/
theorem runStmts_filter_sample (w : World) (st : NbState) (l : List Stmt)
    (h : hasSampleCallList l = false) :
    ((runStmts w st l).2.filter Call.isSample) = [] := by
  cases l with
  | nil => simp [runStmts]
  | cons s rest =>
      simp only [hasSampleCallList, Bool.or_eq_false_iff] at h
      have ihs := stepStmt_filter_sample w st s h.1
      simp only [runStmts]
      split
      · next st2 t heq =>
          rw [heq] at ihs
          have ihr := runStmts_filter_sample w st2 rest h.2
          simp only [List.filter_append, List.append_eq_nil]
          exact ⟨ihs, ihr⟩
      · next e t heq =>
          rw [heq] at ihs
          simpa using ihs

end

set_option maxRecDepth 10000

/-- C1: calling `score_complex` with the model, alphabet, the fixed
structure path and the eight literal sequences returns a 3-tuple of an
entropy tensor, a scalar loss and a scalar perplexity, and the notebook's
final output expression is exactly the entropy tensor's shape together
with those two scalars. -/
theorem C1_score_returns_triple_and_output (w : World) (m : Model) (a : Alphabet)
    (r : ScoreResult)
    (hload : w.loadPretrained = Except.ok (m, a))
    (hscore : w.score ((m.evalMode).toDevice (selectDevice w.cudaAvailable)) a pdbPath
        targetSeqList = Except.ok r) :
    ∃ st : NbState,
      runNotebook w = (Except.ok st, [Call.load, Call.score pdbPath targetSeqList])
      ∧ st.lastScore = some r
      ∧ st.finalOutput = some (r.entropy.shape, r.loss, r.perplexity) :=
  ⟨_, runNotebook_ok w m a r hload hscore, rfl, rfl⟩

/-- C1, witnessed at the concrete world `wOkDemo`. -/
theorem C1_witness :
    ∃ st : NbState,
      runNotebook wOkDemo = (Except.ok st, [Call.load, Call.score pdbPath targetSeqList])
      ∧ st.lastScore = some demoResult
      ∧ st.finalOutput = some (demoResult.entropy.shape, demoResult.loss, demoResult.perplexity) :=
  C1_score_returns_triple_and_output wOkDemo mDemo aDemo demoResult rfl rfl

/-- C2: the notebook consists, in order, of setup-and-load (cell 1),
exactly one `score_complex` call over the fixed structure path and the
literal list of eight sequences (cell 2), and a cell whose every statement
is a comment (cell 3); no statement outside cells 1 and 2 is active. -/
theorem C2_notebook_structure :
    notebook = [cell1, cell2, cell3]
    ∧ allStmts.filter Stmt.isScoreCall
        = [Stmt.scoreCall "esmif_model" "esmif_alphabet" "pdb_path" "target_seq_list"]
    ∧ targetSeqList.length = 8
    ∧ cell3.all Stmt.isComment = true
    ∧ allStmts.filter (fun s => !s.isComment) = cell1 ++ cell2 :=
  ⟨rfl, rfl, rfl, rfl, rfl⟩

/-- C3: `sample_complex` is imported, its only textual occurrence after
the import is inside a comment of the commented-out cell 3, no active
statement of the notebook is a `sample_complex` call, and in every world
the notebook's execution trace contains no `sample_complex` invocation. -/
theorem C3_sample_never_invoked :
    (Stmt.pyImportFrom "models.sample_esmif" "sample_complex") ∈ allStmts
    ∧ hasSampleCallList allStmts = false
    ∧ (Stmt.comment "#     sample_complex(") ∈ cell3
    ∧ ∀ w : World, ((runNotebook w).2.filter Call.isSample) = [] := by
  refine ⟨?_, rfl, ?_, ?_⟩
  · show _ ∈ cell1 ++ cell2 ++ cell3
    exact List.mem_append_left _ (List.mem_append_left _
      (List.Mem.tail _ (List.Mem.tail _ (List.Mem.tail _ (List.Mem.tail _ (List.Mem.tail _
        (List.Mem.tail _ (List.Mem.tail _ (List.Mem.tail _ (List.Mem.tail _ (List.Mem.tail _
        (List.Mem.tail _ (List.Mem.head _)))))))))))))
  · exact List.Mem.tail _ (List.Mem.tail _ (List.Mem.tail _ (List.Mem.tail _ (List.Mem.head _))))
  · intro w
    exact runStmts_filter_sample w initState allStmts rfl

/-- C3, witnessed at the concrete world `wLoadFail`. -/
theorem C3_witness :
    ((runNotebook wLoadFail).2.filter Call.isSample) = [] :=
  C3_sample_never_invoked.2.2.2 wLoadFail

/-- C4: the notebook contains no exception-handling construct, and every
error of the external framework — from the loader or from the scoring
call — propagates unchanged as the result of the run, with no recovery or
retry. -/
theorem C4_errors_propagate :
    (allStmts.all (fun s => !s.isTryExcept) = true)
    ∧ (∀ (w : World) (e : Err), w.loadPretrained = Except.error e →
        (runNotebook w).1 = Except.error e)
    ∧ (∀ (w : World) (m : Model) (a : Alphabet) (e : Err),
        w.loadPretrained = Except.ok (m, a) →
        w.score ((m.evalMode).toDevice (selectDevice w.cudaAvailable)) a pdbPath
          targetSeqList = Except.error e →
        (runNotebook w).1 = Except.error e) := by
  refine ⟨rfl, ?_, ?_⟩
  · intro w e h
    rw [runNotebook_load_error w e h]
  · intro w m a e h1 h2
    rw [runNotebook_score_error w m a e h1 h2]

/-- C4, witnessed at the concrete worlds `wLoadFail` and `wScoreFail`. -/
theorem C4_witness :
    (runNotebook wLoadFail).1 = Except.error (Err.external "weights download failed")
    ∧ (runNotebook wScoreFail).1 = Except.error (Err.fileNotFound pdbPath) :=
  ⟨C4_errors_propagate.2.1 wLoadFail (Err.external "weights download failed") rfl,
   C4_errors_propagate.2.2 wScoreFail mDemo aDemo (Err.fileNotFound pdbPath) rfl rfl⟩

/-- C5: in every world in which the load succeeds and the run completes,
the model the run ends with is the loaded model in evaluation mode, on the
device selected by the fallback rule, with its parameters unchanged — no
operation after the setup modifies its mode, device or parameters. -/
theorem C5_model_frozen (w : World) (m : Model) (a : Alphabet) (st : NbState)
    (hload : w.loadPretrained = Except.ok (m, a))
    (hrun : (runNotebook w).1 = Except.ok st) :
    st.model = some { training := false
                    , device := some (selectDevice w.cudaAvailable)
                    , params := m.params } := by
  cases hscore : w.score ((m.evalMode).toDevice (selectDevice w.cudaAvailable)) a pdbPath
      targetSeqList with
  | ok r =>
      have h := runNotebook_ok w m a r hload hscore
      rw [h] at hrun
      simp only [Except.ok.injEq] at hrun
      rw [← hrun]
      rfl
  | error e =>
      have h := runNotebook_score_error w m a e hload hscore
      rw [h] at hrun
      exact absurd hrun (by simp)

/-- C5, witnessed at the concrete world `wOkDemo`. -/
theorem C5_witness :
    okFinalStateDemo.model
      = some { training := false
             , device := some (selectDevice wOkDemo.cudaAvailable)
             , params := mDemo.params } :=
  C5_model_frozen wOkDemo mDemo aDemo okFinalStateDemo rfl
    (by rw [runNotebook_ok wOkDemo mDemo aDemo demoResult rfl rfl]; rfl)

/-- C6: the notebook's only inputs are the structure path (which ends in
".pdb"), the sequence list, and the pretrained weights fetched by the
loader: the only network-touching statement is the loader call, and the
run's external-call trace is exactly the load followed by the scoring
call over that path and that list. -/
theorem C6_inputs_exactly_three (w : World) (m : Model) (a : Alphabet) (r : ScoreResult)
    (hload : w.loadPretrained = Except.ok (m, a))
    (hscore : w.score ((m.evalMode).toDevice (selectDevice w.cudaAvailable)) a pdbPath
        targetSeqList = Except.ok r) :
    (runNotebook w).2 = [Call.load, Call.score pdbPath targetSeqList]
    ∧ (".pdb".data <:+ pdbPath.data)
    ∧ allStmts.filter (fun s => !((s.effects.filter Effect.isNetwork).isEmpty))
        = [Stmt.loadPretrained] := by
  refine ⟨?_, by decide, rfl⟩
  rw [runNotebook_ok w m a r hload hscore]

/-- C6, witnessed at the concrete world `wOkDemo`. -/
theorem C6_witness :
    (runNotebook wOkDemo).2 = [Call.load, Call.score pdbPath targetSeqList]
    ∧ (".pdb".data <:+ pdbPath.data)
    ∧ allStmts.filter (fun s => !((s.effects.filter Effect.isNetwork).isEmpty))
        = [Stmt.loadPretrained] :=
  C6_inputs_exactly_three wOkDemo mDemo aDemo demoResult rfl rfl

/-- C7: no statement of the notebook writes a file, and the only
network-contacting effect is the weight download performed by the
pretrained loader — the file-writing `sample_complex` call exists only as
comment text. -/
theorem C7_no_persistence :
    (effectsList allStmts).filter Effect.isFileWrite = []
    ∧ (effectsList allStmts).filter Effect.isNetwork
        = [Effect.networkDownload "esm_if1_gvp4_t16_142M_UR50"] :=
  ⟨rfl, rfl⟩

/-- C8, counterexample: the claim that no statement of the notebook
mutates process-wide interpreter state is false — `sys.path.append("..")`
(notebook line 12) mutates the interpreter-wide module search path. -/
theorem C8_counterexample :
    ¬ (∀ s ∈ allStmts, (s.effects.filter Effect.isGlobalMutation) = []) := by
  intro h
  have hm : Stmt.sysPathAppend ".." ∈ allStmts := by
    show _ ∈ cell1 ++ cell2 ++ cell3
    exact List.mem_append_left _ (List.mem_append_left _
      (List.Mem.tail _ (List.Mem.tail _ (List.Mem.head _))))
  have := h _ hm
  simp [Stmt.effects, Effect.isGlobalMutation] at this

/-- C8, amended: the only process-wide interpreter state the notebook
mutates is `sys.path`, and the only statement doing so is the single
`sys.path.append("..")` of the setup cell; every other statement affects
only local bindings. -/
theorem C8_only_sys_path_mutates_global :
    (effectsList allStmts).filter Effect.isGlobalMutation = [Effect.globalMutation "sys.path"]
    ∧ allStmts.filter (fun s => !((s.effects.filter Effect.isGlobalMutation).isEmpty))
        = [Stmt.sysPathAppend ".."] :=
  ⟨rfl, rfl⟩

/-- C9: device selection is a total fallback rule: the CUDA device exactly
when `torch.cuda.is_available()` returns true, and the CPU device
otherwise, for every value of that flag. -/
theorem C9_device_selection_total (b : Bool) :
    (selectDevice b = Device.cuda ↔ b = true)
    ∧ (selectDevice b = Device.cpu ↔ b = false) := by
  cases b <;> simp [selectDevice]

/-- C9, witnessed at the concrete flag value `false`. -/
theorem C9_witness :
    (selectDevice false = Device.cuda ↔ false = true)
    ∧ (selectDevice false = Device.cpu ↔ false = false) :=
  C9_device_selection_total false

/-- C10: the literal `target_seq_list` has eight elements, every element
has length 124, and the elements at indices 0 and 5 are identical. -/
theorem C10_seq_list_lengths_and_duplicate :
    targetSeqList.length = 8
    ∧ targetSeqList.all (fun s => s.length == 124) = true
    ∧ targetSeqList.get? 0 = targetSeqList.get? 5 := by
  refine ⟨rfl, by decide, by decide⟩

end Esmif
